import Mathlib

/-!
Verification of the CrowdShield core (routing, risk fusion, advisory cache,
facility selection, dispatch) against a shallow Lean embedding of the
repository's Python source.  Python floats are modelled as exact rationals
(`ℚ`) where the source only does field arithmetic and comparisons, and as
reals (`ℝ`) where the source uses transcendental functions (`math.sin`,
`math.atan2`, ...).  Mutation of Python objects is modelled by explicit
state passing: a function that mutates a graph in place returns the
post-call state of that graph.  External library calls (network fetches,
the OpenAI client, `networkx` search) are modelled as explicit parameters
or as idealized deterministic functions, documented at each definition.
-/

namespace CrowdShield

/-- Python's `min(xs, key=k)`: the first element attaining the minimal key.
`min` scans left to right and replaces the current best only on a strictly
smaller key, so ties are broken by first occurrence.  Returns `none` on the
empty list (where Python raises `ValueError`). -/
def minBy {α β : Type} [LinearOrder β] (key : α → β) : List α → Option α
  | [] => none
  | x :: xs => some (xs.foldl (fun b y => if key y < key b then y else b) x)

/-- The fold underlying `minBy` yields the first minimum: the list splits as
`l₁ ++ m :: l₂` with every element of `l₁` strictly worse and every element
of `l₂` no better. -/
theorem minBy_first_min {α β : Type} [LinearOrder β] (key : α → β) :
    ∀ (l : List α) (m : α), minBy key l = some m →
      ∃ l₁ l₂, l = l₁ ++ m :: l₂ ∧ (∀ x ∈ l₁, key m < key x) ∧ (∀ x ∈ l₂, key m ≤ key x) := by
  intro l
  match l with
  | [] => intro m h; simp [minBy] at h
  | x :: xs =>
    induction xs generalizing x with
    | nil =>
      intro m h
      simp [minBy] at h
      exact ⟨[], [], by simp [h], by simp, by simp⟩
    | cons y ys ih =>
      intro m h
      simp only [minBy, List.foldl_cons] at h
      by_cases hyx : key y < key x
      · rw [if_pos hyx] at h
        obtain ⟨l₁, l₂, hsplit, hlt, hle⟩ := ih y m (by simpa [minBy] using h)
        cases l₁ with
        | nil =>
          simp at hsplit
          obtain ⟨rfl, rfl⟩ := hsplit
          exact ⟨[x], ys, by simp, by simpa using hyx, hle⟩
        | cons z l₁ =>
          have hz : y = z ∧ ys = l₁ ++ m :: l₂ := by simpa using hsplit
          refine ⟨x :: y :: l₁, l₂, by simp [hz.2], ?_, hle⟩
          have hy' : key m < key y := by rw [hz.1]; exact hlt z (by simp)
          intro w hw
          simp only [List.mem_cons] at hw
          rcases hw with rfl | rfl | hw
          · exact lt_trans hy' hyx
          · exact hy'
          · exact hlt w (by simp [hw])
      · rw [if_neg hyx] at h
        obtain ⟨l₁, l₂, hsplit, hlt, hle⟩ := ih x m (by simpa [minBy] using h)
        cases l₁ with
        | nil =>
          simp at hsplit
          obtain ⟨rfl, rfl⟩ := hsplit
          refine ⟨[], y :: ys, by simp, by simp, ?_⟩
          intro w hw
          simp only [List.mem_cons] at hw
          rcases hw with rfl | hw
          · exact le_of_not_lt hyx
          · exact hle w hw
        | cons z l₁ =>
          have hz : x = z ∧ ys = l₁ ++ m :: l₂ := by simpa using hsplit
          refine ⟨x :: y :: l₁, l₂, by simp [hz.2], ?_, hle⟩
          have hx' : key m < key x := by rw [hz.1]; exact hlt z (by simp)
          intro w hw
          simp only [List.mem_cons] at hw
          rcases hw with rfl | rfl | hw
          · exact hx'
          · exact lt_of_lt_of_le hx' (le_of_not_lt hyx)
          · exact hlt w (by simp [hw])

/-- `minBy` returns an element whose key is minimal over the whole list. -/
theorem minBy_le {α β : Type} [LinearOrder β] (key : α → β) (l : List α) (m : α)
    (h : minBy key l = some m) : ∀ y ∈ l, key m ≤ key y := by
  obtain ⟨l₁, l₂, rfl, hlt, hle⟩ := minBy_first_min key l m h
  intro y hy
  rcases List.mem_append.mp hy with hy | hy
  · exact le_of_lt (hlt y hy)
  · rcases List.mem_cons.mp hy with hy | hy
    · simp [hy]
    · exact hle y hy

/-- `minBy` returns a member of the list. -/
theorem minBy_mem {α β : Type} [LinearOrder β] (key : α → β) (l : List α) (m : α)
    (h : minBy key l = some m) : m ∈ l := by
  obtain ⟨l₁, l₂, rfl, _, _⟩ := minBy_first_min key l m h
  simp

/-! ## Advisory generator (`src/llm_insights.py`)

Module-level state: `OPENAI_DISABLED` (the process-wide circuit-breaker
flag, initially `False`) and `LOCAL_CACHE` (the severity-keyed advisory
dict, loaded from `data/cached_advisories.json`).  The OpenAI client is an
external dependency: each call's environment (`OPENAI_API_KEY`, client
availability) and the outcome the upstream would produce are explicit
inputs, and the returned `Bool` records whether the upstream generator was
actually invoked. -/

/-- `startsWithChars pat l`: `pat` is an initial segment of `l`. -/
def startsWithChars : List Char → List Char → Bool
  | [], _ => true
  | _ :: _, [] => false
  | a :: as, b :: bs => a == b && startsWithChars as bs

/-- `hasSubstrChars pat l`: `pat` occurs contiguously somewhere in `l`. -/
def hasSubstrChars (pat : List Char) : List Char → Bool
  | [] => startsWithChars pat []
  | c :: rest => startsWithChars pat (c :: rest) || hasSubstrChars pat rest

/-- Python's `pat in msg` on strings (substring containment). -/
def strContains (msg pat : String) : Bool := hasSubstrChars pat.toList msg.toList

/-- Python dict update `d[k] = v`: overwrite in place, or append a new key
(insertion order preserved). -/
def dictSet (k v : String) : List (String × String) → List (String × String)
  | [] => [(k, v)]
  | (k', v') :: rest => if k' = k then (k, v) :: rest else (k', v') :: dictSet k v rest

/-- The module-level state of `llm_insights`: the circuit-breaker flag
`OPENAI_DISABLED` (line 22) and the severity-keyed cache `LOCAL_CACHE`
(line 21, persisted to `data/cached_advisories.json`). -/
structure AdvisoryState where
  OPENAI_DISABLED : Bool
  LOCAL_CACHE : List (String × String)
  deriving DecidableEq

/-- Outcome the upstream OpenAI call would have if it were invoked:
either a completion text or a raised exception with message `msg`. -/
inductive UpstreamOutcome where
  | ok (text : String)
  | err (msg : String)
  deriving DecidableEq

/-- One call to `generate_advisory` together with its environment:
the arguments, `OPENAI_API_KEY`, whether an OpenAI client class was
importable, and the outcome the upstream would produce. -/
structure CallInput where
  severity : String
  top_drivers : List String
  role : String
  key : Option String
  clientAvail : Bool
  upstream : UpstreamOutcome

/-- `LOCAL_CACHE.get(severity, f"{severity} advisory: follow local instructions.")`
(lines 39 and 79 of `llm_insights.py`). -/
def cacheGetOrTemplate (cache : List (String × String)) (severity : String) : String :=
  match cache.lookup severity with
  | some t => t
  | none => severity ++ " advisory: follow local instructions."

/-- The prompt string built at line 34 of `llm_insights.py` (it is only
ever passed to the upstream client). -/
def advisoryPrompt (severity : String) (top_drivers : List String) (role : String) : String :=
  "Provide a concise advisory for severity=" ++ severity ++ ". Top drivers: " ++
    String.intercalate ", " top_drivers ++ ". Role: " ++ role ++ "."

/-- `generate_advisory(severity, top_drivers, role)` from `llm_insights.py`:
returns `(result text, whether the upstream generator was invoked, new
module state)`.  Mirrors the source: an already-tripped breaker returns the
cache-or-template immediately (lines 38-39); otherwise, with a key and a
client, the upstream is invoked — a non-empty result is cached and
returned (lines 65-70), an empty result falls through to the fallback, and
an exception whose message mentions a quota trips the breaker
(lines 71-77); without a key or client, the fallback is returned directly
(line 79). -/
def generate_advisory (st : AdvisoryState) (c : CallInput) : String × Bool × AdvisoryState :=
  if st.OPENAI_DISABLED then
    (cacheGetOrTemplate st.LOCAL_CACHE c.severity, false, st)
  else if c.key.isSome && c.clientAvail then
    match c.upstream with
    | .ok text =>
      if text ≠ "" then
        (text, true, { st with LOCAL_CACHE := dictSet c.severity text st.LOCAL_CACHE })
      else
        (cacheGetOrTemplate st.LOCAL_CACHE c.severity, true, st)
    | .err msg =>
      let st' := if strContains msg "insufficient_quota" || strContains msg "quota" then
        { st with OPENAI_DISABLED := true } else st
      (cacheGetOrTemplate st'.LOCAL_CACHE c.severity, true, st')
  else
    (cacheGetOrTemplate st.LOCAL_CACHE c.severity, false, st)

/-- A sequence of `generate_advisory` calls in one process, threading the
module-level state; returns the list of `(text, upstream invoked)` pairs
and the final state. -/
def runAdvisories (st : AdvisoryState) : List CallInput → List (String × Bool) × AdvisoryState
  | [] => ([], st)
  | c :: rest =>
    let r := generate_advisory st c
    let rs := runAdvisories r.2.2 rest
    ((r.1, r.2.1) :: rs.1, rs.2)

/-- With the breaker tripped, a single call returns the cache-or-template,
does not invoke the upstream and leaves the state untouched. -/
theorem generate_advisory_disabled (st : AdvisoryState) (c : CallInput)
    (h : st.OPENAI_DISABLED = true) :
    generate_advisory st c = (cacheGetOrTemplate st.LOCAL_CACHE c.severity, false, st) := by
  simp [generate_advisory, h]

/-- C1: Once the process-wide circuit breaker flag has been set (Open),
every subsequent call to the advisory generator in that process returns
the durable cache entry for the severity or the static template string,
and never invokes the upstream generator, for any (severity, drivers,
role) input. -/
theorem C1_breaker_open_skips_upstream (st : AdvisoryState) (calls : List CallInput)
    (h : st.OPENAI_DISABLED = true) :
    (runAdvisories st calls).1 =
      calls.map (fun c => (cacheGetOrTemplate st.LOCAL_CACHE c.severity, false)) ∧
    (runAdvisories st calls).2 = st := by
  induction calls with
  | nil => simp [runAdvisories]
  | cons c rest ih =>
    simp only [runAdvisories, generate_advisory_disabled st c h, List.map_cons]
    exact ⟨by simp [ih.1], ih.2⟩

/-- Witness for C1 at a concrete tripped state: the cached text for the
severity is returned, the upstream is not invoked, and the state
(breaker flag and cache) is unchanged — even though a key, a client and a
willing upstream are all present. -/
theorem C1_witness :
    (runAdvisories ⟨true, [("High", "seek shelter")]⟩
        [⟨"High", ["rain"], "Authority", some "k", true, .ok "fresh"⟩,
         ⟨"Low", [], "Citizen", some "k", true, .ok "other"⟩]).1 =
      [("seek shelter", false), ("Low advisory: follow local instructions.", false)] ∧
    (runAdvisories ⟨true, [("High", "seek shelter")]⟩
        [⟨"High", ["rain"], "Authority", some "k", true, .ok "fresh"⟩,
         ⟨"Low", [], "Citizen", some "k", true, .ok "other"⟩]).2 =
      ⟨true, [("High", "seek shelter")]⟩ := by
  have h := C1_breaker_open_skips_upstream ⟨true, [("High", "seek shelter")]⟩
    [⟨"High", ["rain"], "Authority", some "k", true, .ok "fresh"⟩,
     ⟨"Low", [], "Citizen", some "k", true, .ok "other"⟩] rfl
  exact ⟨by rw [h.1]; rfl, h.2⟩

/-! ## Routing (`src/routing.py`)

The spatial graph comes from `osmnx` (a `networkx` multigraph): nodes carry
`y`/`x` coordinates, edges carry an attribute dict.  Node ids are naturals
and coordinates exact rationals.  The external `networkx`/`osmnx` calls are
modelled deterministically: `ox.nearest_nodes` as the first node minimizing
squared planar distance, `nx.shortest_path(..., weight=w)` as the first
simple path minimizing the total of the named weight attribute (missing
attribute read as `1`, the `networkx` default; parallel edges contribute
the cheapest of their weights), raising — modelled as `none` — when an
endpoint is absent or no path exists.  A graph value returned alongside a
result is the post-call state of the graph object that was passed in
(Python mutates edge-attribute dicts in place). -/

/-- Edge attribute dict: the attributes `routing.py` reads or writes.
`none` = key absent. -/
structure EdgeData where
  length : Option ℚ
  speed_kph : Option ℚ
  hazard_penalty : Option ℚ
  time : Option ℚ
  safe_weight : Option ℚ
  deriving DecidableEq

/-- One edge `(u, v, key, data)` of the multigraph. -/
structure Edge where
  u : ℕ
  v : ℕ
  key : ℕ
  data : EdgeData
  deriving DecidableEq

/-- A graph node with its `osmnx` coordinate attributes `y` (lat), `x` (lon). -/
structure Node where
  id : ℕ
  y : ℚ
  x : ℚ
  deriving DecidableEq

/-- The `osmnx`/`networkx` multigraph. -/
structure Graph where
  nodes : List Node
  edges : List Edge
  deriving DecidableEq

/-- A `(lat, lon)` coordinate pair. -/
abbrev Point : Type := ℚ × ℚ

/-- A hazard zone row of the hazards GeoDataFrame: polygon geometry plus a
risk level. -/
structure Hazard where
  geometry : List Point
  risk : String
  deriving DecidableEq

/-- `load_graph(online, ...)` from `routing.py` (lines 5-22).  The external
effects are explicit: `fetchLive` is the outcome of
`ox.graph_from_point(...)` (line 11), `cacheExists` is
`os.path.exists("data/local_graph.graphml")` (line 15) and `loadCached`
the outcome of `ox.load_graphml(...)` (line 16); `Except.error` models a
raised exception, which the source catches and turns into `None`
(lines 20-22). -/
def load_graph (online : Bool) (fetchLive : Except String Graph)
    (cacheExists : Bool) (loadCached : Except String Graph) : Option Graph :=
  if online then
    match fetchLive with
    | .ok g => some g
    | .error _ => none
  else if cacheExists then
    match loadCached with
    | .ok g => some g
    | .error _ => none
  else
    none

/-- `block_edges_by_hazards(G, hazards_gdf)` from `routing.py`
(lines 24-39).  The second component records whether the returned graph is
a fresh copy (`G.copy()`, line 33) or the very object that was passed in
(`return G`, line 31: `hazards_gdf` is `None` or `.empty`).  The hazard
intersection logic is absent from the source (line 34 is a `TODO`), so the
edge data — in particular `hazard_penalty` — is never touched. -/
def block_edges_by_hazards (G : Option Graph) (hazards_gdf : Option (List Hazard)) :
    Option Graph × Bool :=
  match G with
  | none => (none, false)
  | some g =>
    match hazards_gdf with
    | none => (some g, false)
    | some hz => if hz = [] then (some g, false) else (some g, true)

/-- `ox.nearest_nodes(G, x, y)`: the node nearest to `(x, y)`, modelled as
the first node minimizing squared planar distance; `none` models the raise
on an empty graph. -/
def nearest_nodes (G : Graph) (x y : ℚ) : Option ℕ :=
  (minBy (fun n => (n.x - x) ^ 2 + (n.y - y) ^ 2) G.nodes).map Node.id

/-- Outgoing neighbours of `u` (parallel edges may repeat a neighbour;
this only duplicates enumerated paths and affects neither existence nor
minima). -/
def successors (G : Graph) (u : ℕ) : List ℕ :=
  (G.edges.filter (fun e => e.u == u)).map Edge.v

/-- All simple (node-distinct) paths from `u` to `t` avoiding `visited`;
`fuel` bounds the recursion depth (instantiated with the node count). -/
def simplePathsAux (G : Graph) (t : ℕ) : ℕ → ℕ → List ℕ → List (List ℕ)
  | 0, u, _ => if u = t then [[u]] else []
  | f + 1, u, visited =>
    if u = t then [[u]]
    else
      ((successors G u).filter (fun v => !(u :: visited).contains v)).flatMap
        (fun v => (simplePathsAux G t f v (u :: visited)).map (u :: ·))

/-- All simple paths from `s` to `t` in `G`. -/
def simplePaths (G : Graph) (s t : ℕ) : List (List ℕ) :=
  simplePathsAux G t G.nodes.length s []

/-- The cheapest weight among the parallel edges from `u` to `v` under the
per-edge weight reader `w` (`0` if there is no such edge; the path
enumeration only ever queries existing edges). -/
def edgeMin (G : Graph) (w : EdgeData → ℚ) (u v : ℕ) : ℚ :=
  match (G.edges.filter (fun e => e.u == u && e.v == v)).map (fun e => w e.data) with
  | [] => 0
  | c :: cs => cs.foldl min c

/-- Total weight of a node path: the sum of `edgeMin` over consecutive
pairs. -/
def pathCost (G : Graph) (w : EdgeData → ℚ) : List ℕ → ℚ
  | [] => 0
  | [_] => 0
  | u :: v :: rest => edgeMin G w u v + pathCost G w (v :: rest)

/-- `nx.shortest_path(G, s, t, weight=attr)` under the weight reader `w`:
`none` models the raise when an endpoint is not in the graph or no path
exists; otherwise the first simple path of minimal total weight. -/
def shortestPathNodes (G : Graph) (w : EdgeData → ℚ) (s t : ℕ) : Option (List ℕ) :=
  if (G.nodes.map Node.id).contains s && (G.nodes.map Node.id).contains t then
    minBy (pathCost G w) (simplePaths G s t)
  else
    none

/-- Reading a weight attribute in `networkx`: a missing attribute counts
as `1`. -/
def lengthAttr (d : EdgeData) : ℚ := d.length.getD 1

/-- The `"time"` attribute as read by the search (missing = `1`; in
`compute_fastest_path` it is always set beforehand). -/
def timeAttr (d : EdgeData) : ℚ := d.time.getD 1

/-- The `"safe_weight"` attribute as read by the search (missing = `1`; in
`compute_safest_path` it is always set beforehand). -/
def safeAttr (d : EdgeData) : ℚ := d.safe_weight.getD 1

/-- The travel-time value `compute_fastest_path` writes into `data["time"]`
(lines 78-83 of `routing.py`): `speed = data.get("speed_kph", 30)`; if a
`length` is present and `speed > 0`, `length / (speed*1000/3600)`,
otherwise the default fallback `data.get("length", 100) / 10`. -/
def fastestTimeOf (d : EdgeData) : ℚ :=
  let speed := d.speed_kph.getD 30
  match d.length with
  | some l => if speed > 0 then l / (speed * 1000 / 3600) else l / 10
  | none => 100 / 10

/-- The value `compute_safest_path` writes into `data["safe_weight"]`
(lines 114-117 of `routing.py`):
`data.get("length", 100) * (1 + data.get("hazard_penalty", 0))`. -/
def safeWeightOf (d : EdgeData) : ℚ :=
  (d.length.getD 100) * (1 + d.hazard_penalty.getD 0)

/-- The in-place annotation loop of `compute_fastest_path` (lines 78-83):
every edge's `data["time"]` is assigned; all other attributes are left
alone. -/
def annotateTime (G : Graph) : Graph :=
  { G with edges := G.edges.map (fun e => { e with data := { e.data with time := some (fastestTimeOf e.data) } }) }

/-- The in-place annotation loop of `compute_safest_path` (lines 114-117):
every edge's `data["safe_weight"]` is assigned. -/
def annotateSafe (G : Graph) : Graph :=
  { G with edges := G.edges.map (fun e => { e with data := { e.data with safe_weight := some (safeWeightOf e.data) } }) }

/-- Node-to-coordinate conversion (lines 54-64 of `routing.py`):
`(G.nodes[node].get('y', ...), G.nodes[node].get('x', ...))`, with the
inner `except` appending `origin` when the node lookup fails. -/
def toCoord (G : Graph) (origin : Point) (nid : ℕ) : Point :=
  match G.nodes.find? (fun n => n.id == nid) with
  | some n => (n.y, n.x)
  | none => origin

/-- The coordinate-conversion tail shared by the three compute functions:
map nodes to coordinates, with `coords if coords else [origin, target]`. -/
def pathToCoords (G : Graph) (origin target : Point) (path : List ℕ) : List Point :=
  let coords := path.map (toCoord G origin)
  if coords = [] then [origin, target] else coords

/-- `compute_shortest_path(G, origin, target, weight="length")` from
`routing.py` (lines 41-68): `None` if the graph is `None`; snap both
endpoints with `ox.nearest_nodes(G, lon, lat)`; search with weight
`"length"`; convert the node path to coordinates; every exception (snap on
an empty graph, no path) is caught and yields `None`. -/
def compute_shortest_path (G : Option Graph) (origin target : Point) : Option (List Point) :=
  match G with
  | none => none
  | some g =>
    match nearest_nodes g origin.2 origin.1, nearest_nodes g target.2 target.1 with
    | some origin_node, some target_node =>
      match shortestPathNodes g lengthAttr origin_node target_node with
      | some path => some (pathToCoords g origin target path)
      | none => none
    | _, _ => none

/-- `compute_fastest_path(G, origin, target)` from `routing.py`
(lines 70-104).  The edge loop first writes `data["time"]` into the graph
in place (modelled by returning the post-call graph as the second
component); then snaps and searches with weight `"time"`. -/
def compute_fastest_path (G : Option Graph) (origin target : Point) :
    Option (List Point) × Option Graph :=
  match G with
  | none => (none, none)
  | some g =>
    let g2 := annotateTime g
    let result :=
      match nearest_nodes g2 origin.2 origin.1, nearest_nodes g2 target.2 target.1 with
      | some origin_node, some target_node =>
        match shortestPathNodes g2 timeAttr origin_node target_node with
        | some path => some (pathToCoords g2 origin target path)
        | none => none
      | _, _ => none
    (result, some g2)

/-- `compute_safest_path(G, origin, target, hazards=None)` from
`routing.py` (lines 106-138).  The `hazards` argument is accepted but
never read by the body.  The edge loop writes `data["safe_weight"]` into
the graph in place (post-call graph returned as second component); then
snaps and searches with weight `"safe_weight"`. -/
def compute_safest_path (G : Option Graph) (origin target : Point)
    (hazards : Option (List Hazard)) : Option (List Point) × Option Graph :=
  match G with
  | none => (none, none)
  | some g =>
    let g2 := annotateSafe g
    let result :=
      match nearest_nodes g2 origin.2 origin.1, nearest_nodes g2 target.2 target.1 with
      | some origin_node, some target_node =>
        match shortestPathNodes g2 safeAttr origin_node target_node with
        | some path => some (pathToCoords g2 origin target path)
        | none => none
      | _, _ => none
    (result, some g2)

/-- `grid_route_fallback(origin, target)` from `routing.py`
(lines 140-142): the crude two-point straight-line route. -/
def grid_route_fallback (origin target : Point) : List Point :=
  [origin, target]

/-- The strategy dispatch of `app.py` (lines 441-450): pick the compute
function by the `route_mode` string; an unknown mode falls back to
`Shortest` and retags `route_mode_used`. -/
def strategyRoute (g : Graph) (origin target : Point) (route_mode : String)
    (hazards : Option (List Hazard)) : Option (List Point) × String :=
  if route_mode = "Shortest" then
    (compute_shortest_path (some g) origin target, route_mode)
  else if route_mode = "Fastest" then
    ((compute_fastest_path (some g) origin target).1, route_mode)
  else if route_mode = "Safest" then
    ((compute_safest_path (some g) origin target hazards).1, route_mode)
  else
    (compute_shortest_path (some g) origin target, "Shortest (fallback)")

/-- The route-computation block of `app.py` (lines 439-471, inside
`if find_route:`): with no graph, the straight-line fallback tagged
`"Grid fallback (offline)"`; otherwise the chosen compute function, its
result kept only `if route and len(route) > 1`, else the straight-line
fallback tagged `"Grid fallback"`.  Returns `(route, route_mode_used)`. -/
def routePipeline (G_blocked : Option Graph) (origin target : Point)
    (route_mode : String) (hazards : Option (List Hazard)) : List Point × String :=
  match G_blocked with
  | none => (grid_route_fallback origin target, "Grid fallback (offline)")
  | some g =>
    let r := strategyRoute g origin target route_mode hazards
    match r.1 with
    | some route =>
      if route.length > 1 then (route, r.2)
      else (grid_route_fallback origin target, "Grid fallback")
    | none => (grid_route_fallback origin target, "Grid fallback")

/-- For the three recognized strategies, `strategyRoute` tags its result
with the requested mode. -/
theorem strategyRoute_tag (g : Graph) (origin target : Point) (route_mode : String)
    (hazards : Option (List Hazard))
    (hmode : route_mode = "Shortest" ∨ route_mode = "Fastest" ∨ route_mode = "Safest") :
    (strategyRoute g origin target route_mode hazards).2 = route_mode := by
  rcases hmode with h | h | h <;> subst h <;> simp [strategyRoute]

/-- C2: For every origin, target, and strategy (Shortest, Fastest,
Safest): if the graph is Unavailable (`None`), or the strategy's compute
function produces no path, or the computed path has fewer than 2 points,
the routing pipeline returns exactly the two-point straight-line route
`[origin, target]` tagged `"Grid fallback (offline)"` / `"Grid fallback"`;
a successful route is tagged with the requested strategy name, which
differs from both fallback tags. -/
theorem C2_route_fallback (G_blocked : Option Graph) (origin target : Point)
    (route_mode : String) (hazards : Option (List Hazard))
    (hmode : route_mode = "Shortest" ∨ route_mode = "Fastest" ∨ route_mode = "Safest") :
    (G_blocked = none → routePipeline G_blocked origin target route_mode hazards =
      ([origin, target], "Grid fallback (offline)")) ∧
    (∀ g, G_blocked = some g → (strategyRoute g origin target route_mode hazards).1 = none →
      routePipeline G_blocked origin target route_mode hazards =
        ([origin, target], "Grid fallback")) ∧
    (∀ g r, G_blocked = some g →
      (strategyRoute g origin target route_mode hazards).1 = some r → r.length < 2 →
      routePipeline G_blocked origin target route_mode hazards =
        ([origin, target], "Grid fallback")) ∧
    (∀ g r, G_blocked = some g →
      (strategyRoute g origin target route_mode hazards).1 = some r → 2 ≤ r.length →
      routePipeline G_blocked origin target route_mode hazards = (r, route_mode)) ∧
    ("Grid fallback (offline)" ≠ route_mode ∧ "Grid fallback" ≠ route_mode) := by
  refine ⟨?_, ?_, ?_, ?_, ?_⟩
  · rintro rfl; rfl
  · rintro g rfl hnone
    simp [routePipeline, grid_route_fallback, hnone]
  · rintro g r rfl hsome hlt
    have hgt : ¬ r.length > 1 := by omega
    simp [routePipeline, grid_route_fallback, hsome, hgt]
  · rintro g r rfl hsome hge
    have hgt : r.length > 1 := by omega
    simp [routePipeline, hsome, hgt,
      strategyRoute_tag g origin target route_mode hazards hmode]
  · rcases hmode with h | h | h <;> subst h <;> exact ⟨by decide, by decide⟩

/-- Witness for C2: with an `Unavailable` graph and strategy `"Shortest"`,
the pipeline returns the straight line tagged as the offline grid
fallback. -/
theorem C2_witness :
    routePipeline none ((9 : ℚ), (76 : ℚ)) ((10 : ℚ), (77 : ℚ)) "Shortest" none =
      ([((9 : ℚ), (76 : ℚ)), ((10 : ℚ), (77 : ℚ))], "Grid fallback (offline)") :=
  (C2_route_fallback none (9, 76) (10, 77) "Shortest" none (Or.inl rfl)).1 rfl

/-- C4 (amended): `load_graph` with `online=True` returns the live fetch's
graph, and on a fetch failure returns `None` directly — it does not fall
back to the cached graph; with `online=False` it loads the cached graph if
the cache file exists (a load failure giving `None`) and returns `None`
otherwise.  Every failure is swallowed into the `Option` result. -/
theorem C4_load_graph_ladder (fetchLive : Except String Graph) (cacheExists : Bool)
    (loadCached : Except String Graph) :
    (load_graph true fetchLive cacheExists loadCached =
      match fetchLive with
      | .ok g => some g
      | .error _ => none) ∧
    (load_graph false fetchLive cacheExists loadCached =
      if cacheExists then
        match loadCached with
        | .ok g => some g
        | .error _ => none
      else none) := by
  constructor
  · simp [load_graph]
  · cases cacheExists <;> simp [load_graph]

/-- Counterexample to C4 as stated: the online fetch fails while a cached
graph sits in durable storage, yet `load_graph` returns `None` instead of
the cached graph — step (1) failing does not fall through to step (2). -/
theorem C4_counterexample :
    load_graph true (Except.error "connection failed") true
        (Except.ok ⟨[⟨0, 0, 0⟩], []⟩) = none ∧
    load_graph true (Except.error "connection failed") true
        (Except.ok ⟨[⟨0, 0, 0⟩], []⟩) ≠ some ⟨[⟨0, 0, 0⟩], []⟩ := by
  exact ⟨rfl, by decide⟩

/-- C5: the hazard-weighting step is a stub — for every graph and every
hazard set (including non-empty ones) `block_edges_by_hazards` returns the
graph with its edge data untouched, so no edge ever receives a
`hazard_penalty`, contradicting the documented behavior ("Block edges
intersecting hazard polygons"; the intersection logic is an unimplemented
`TODO` at line 34). -/
theorem C5_hazard_weighting_stub (g : Graph) (hz : List Hazard) :
    (block_edges_by_hazards (some g) (some hz)).1 = some g := by
  simp only [block_edges_by_hazards]
  split <;> rfl

/-- Counterexample to C6 as stated: with an empty hazard set,
`block_edges_by_hazards` hands back the provider's graph object itself
(no copy), and `compute_fastest_path` then leaves that object's edge data
changed — the `"time"` annotation was written into the shared graph, not a
local overlay. -/
theorem C6_counterexample :
    block_edges_by_hazards
        (some ⟨[⟨0, 9, 76⟩, ⟨1, 9, 77⟩], [⟨0, 1, 0, ⟨some 100, some 30, none, none, none⟩⟩]⟩)
        (some []) =
      (some ⟨[⟨0, 9, 76⟩, ⟨1, 9, 77⟩], [⟨0, 1, 0, ⟨some 100, some 30, none, none, none⟩⟩]⟩,
        false) ∧
    (compute_fastest_path
        (some ⟨[⟨0, 9, 76⟩, ⟨1, 9, 77⟩], [⟨0, 1, 0, ⟨some 100, some 30, none, none, none⟩⟩]⟩)
        (9, 76) (9, 77)).2 ≠
      some ⟨[⟨0, 9, 76⟩, ⟨1, 9, 77⟩], [⟨0, 1, 0, ⟨some 100, some 30, none, none, none⟩⟩]⟩ := by
  exact ⟨rfl, by decide⟩

/-- C6 (amended): the route engine does write its per-call weight
annotations into the edge data of the graph it is given — after
`compute_fastest_path` every edge of the post-call graph carries
`time = fastestTimeOf` of its prior data, after `compute_safest_path`
every edge carries `safe_weight = safeWeightOf` of its prior data (all
other attributes and endpoints preserved) — and the provider's graph is
shielded from these writes only when `block_edges_by_hazards` made a copy,
which it does not do when the hazard set is absent or empty. -/
theorem C6_annotations_in_place (g : Graph) (origin target : Point)
    (hazards : Option (List Hazard)) :
    ((compute_fastest_path (some g) origin target).2 = some (annotateTime g) ∧
     (compute_safest_path (some g) origin target hazards).2 = some (annotateSafe g)) ∧
    List.Forall₂ (fun e0 e : Edge => e.u = e0.u ∧ e.v = e0.v ∧ e.key = e0.key ∧
        e.data.time = some (fastestTimeOf e0.data) ∧ e.data.length = e0.data.length ∧
        e.data.speed_kph = e0.data.speed_kph ∧ e.data.hazard_penalty = e0.data.hazard_penalty ∧
        e.data.safe_weight = e0.data.safe_weight)
      g.edges (annotateTime g).edges ∧
    List.Forall₂ (fun e0 e : Edge => e.u = e0.u ∧ e.v = e0.v ∧ e.key = e0.key ∧
        e.data.safe_weight = some (safeWeightOf e0.data) ∧ e.data.length = e0.data.length ∧
        e.data.speed_kph = e0.data.speed_kph ∧ e.data.hazard_penalty = e0.data.hazard_penalty ∧
        e.data.time = e0.data.time)
      g.edges (annotateSafe g).edges ∧
    (block_edges_by_hazards (some g) none = (some g, false) ∧
     block_edges_by_hazards (some g) (some []) = (some g, false)) := by
  refine ⟨⟨rfl, rfl⟩, ?_, ?_, rfl, rfl⟩
  · simp only [annotateTime, List.forall₂_map_right_iff]
    exact List.forall₂_same.mpr (fun e _ => ⟨rfl, rfl, rfl, rfl, rfl, rfl, rfl, rfl⟩)
  · simp only [annotateSafe, List.forall₂_map_right_iff]
    exact List.forall₂_same.mpr (fun e _ => ⟨rfl, rfl, rfl, rfl, rfl, rfl, rfl, rfl⟩)

/-- Witness for C6 (amended) at a one-edge graph: the post-call graph of
`compute_fastest_path` is the in-place annotated graph. -/
theorem C6_witness :
    (compute_fastest_path
        (some ⟨[⟨0, 9, 76⟩, ⟨1, 9, 77⟩], [⟨0, 1, 0, ⟨some 100, some 30, none, none, none⟩⟩]⟩)
        (9, 76) (9, 77)).2 =
      some (annotateTime
        ⟨[⟨0, 9, 76⟩, ⟨1, 9, 77⟩], [⟨0, 1, 0, ⟨some 100, some 30, none, none, none⟩⟩]⟩) :=
  (C6_annotations_in_place
    ⟨[⟨0, 9, 76⟩, ⟨1, 9, 77⟩], [⟨0, 1, 0, ⟨some 100, some 30, none, none, none⟩⟩]⟩
    (9, 76) (9, 77) none).1.1

/-- C7: Under the Safest strategy the per-edge search weight is
`length * (1 + hazard_penalty)` with a missing `hazard_penalty` read as
`0`; every edge of the annotated graph carries exactly that value in its
`safe_weight` attribute, which is what the search reads; and the path the
search returns minimizes total hazard-penalized length over all simple
paths between the snapped nodes. -/
theorem C7_safest_weight (d : EdgeData) (l h : ℚ) (g : Graph) (s t : ℕ) (p : List ℕ) :
    (d.length = some l → d.hazard_penalty = some h → safeWeightOf d = l * (1 + h)) ∧
    (d.length = some l → d.hazard_penalty = none → safeWeightOf d = l * (1 + 0)) ∧
    (∀ e ∈ (annotateSafe g).edges, ∃ e0 ∈ g.edges,
      e.data.safe_weight = some (safeWeightOf e0.data) ∧
      safeAttr e.data = safeWeightOf e0.data) ∧
    (shortestPathNodes (annotateSafe g) safeAttr s t = some p →
      ∀ q ∈ simplePaths (annotateSafe g) s t,
        pathCost (annotateSafe g) safeAttr p ≤ pathCost (annotateSafe g) safeAttr q) := by
  refine ⟨?_, ?_, ?_, ?_⟩
  · intro h1 h2; simp [safeWeightOf, h1, h2]
  · intro h1 h2; simp [safeWeightOf, h1, h2]
  · intro e he
    simp only [annotateSafe] at he
    obtain ⟨e0, he0, rfl⟩ := List.mem_map.mp he
    exact ⟨e0, he0, rfl, by simp [safeAttr]⟩
  · intro hp q hq
    unfold shortestPathNodes at hp
    split at hp
    · exact minBy_le _ _ _ hp q hq
    · exact absurd hp (by simp)

/-- A three-node example graph: the direct edge `0→1` crosses a hazard
(`hazard_penalty = 1`), the detour `0→2→1` is hazard-free and shorter once
penalized. -/
def exampleSafeGraph : Graph :=
  ⟨[⟨0, 0, 0⟩, ⟨1, 0, 1⟩, ⟨2, 1, 0⟩],
   [⟨0, 1, 0, ⟨some 10, none, some 1, none, none⟩⟩,
    ⟨0, 2, 0, ⟨some 5, none, none, none, none⟩⟩,
    ⟨2, 1, 0, ⟨some 5, none, none, none, none⟩⟩]⟩

/-- Witness for C7: on `exampleSafeGraph` the search returns the detour
`[0, 2, 1]`, whose penalized cost is no larger than that of the direct
hazardous edge `[0, 1]`. -/
theorem C7_witness :
    pathCost (annotateSafe exampleSafeGraph) safeAttr [0, 2, 1] ≤
      pathCost (annotateSafe exampleSafeGraph) safeAttr [0, 1] :=
  (C7_safest_weight ⟨none, none, none, none, none⟩ 0 0 exampleSafeGraph 0 1 [0, 2, 1]).2.2.2
    (by norm_num [shortestPathNodes, simplePaths, simplePathsAux, successors, minBy, pathCost,
      edgeMin, annotateSafe, safeAttr, safeWeightOf, exampleSafeGraph])
    [0, 1]
    (by norm_num [simplePaths, simplePathsAux, successors, annotateSafe, safeWeightOf,
      exampleSafeGraph])

/-- C8: Under the Fastest strategy the time weight is the edge length
divided by the effective speed: a present positive `speed_kph` gives
`length / (speed*1000/3600)`; a missing speed is replaced by the default
`30` kph; a zero (or negative) speed falls back to `length / 10` (a fixed
default of 10 m/s); an absent length takes the default fallback
`100 / 10`.  These four cases exhaust every possible edge attribute
combination, and in each the divisor is nonzero — the weight computation
never divides by zero. -/
theorem C8_fastest_weight_defined (d : EdgeData) :
    (∀ l v, d.length = some l → d.speed_kph = some v → 0 < v →
      fastestTimeOf d = l / (v * 1000 / 3600) ∧ v * 1000 / 3600 ≠ 0) ∧
    (∀ l, d.length = some l → d.speed_kph = none →
      fastestTimeOf d = l / (30 * 1000 / 3600) ∧ ((30 : ℚ) * 1000 / 3600) ≠ 0) ∧
    (∀ l v, d.length = some l → d.speed_kph = some v → v ≤ 0 →
      fastestTimeOf d = l / 10 ∧ (10 : ℚ) ≠ 0) ∧
    (d.length = none → fastestTimeOf d = 100 / 10 ∧ (10 : ℚ) ≠ 0) := by
  refine ⟨?_, ?_, ?_, ?_⟩
  · intro l v hl hv hpos
    refine ⟨by simp [fastestTimeOf, hl, hv, hpos], ?_⟩
    have : (0 : ℚ) < v * 1000 / 3600 := by positivity
    exact ne_of_gt this
  · intro l hl hv
    refine ⟨by norm_num [fastestTimeOf, hl, hv], by norm_num⟩
  · intro l v hl hv hle
    refine ⟨?_, by norm_num⟩
    simp [fastestTimeOf, hl, hv, show ¬ ((0 : ℚ) < v) from not_lt.mpr hle]
  · intro hl
    refine ⟨by simp [fastestTimeOf, hl], by norm_num⟩

/-- Witness for C8: an edge with `length = 100` and `speed_kph = 30` gets
time weight `100 / (30*1000/3600)`, with a nonzero divisor. -/
theorem C8_witness :
    fastestTimeOf ⟨some 100, some 30, none, none, none⟩ = 100 / (30 * 1000 / 3600) ∧
    (30 : ℚ) * 1000 / 3600 ≠ 0 :=
  (C8_fastest_weight_defined ⟨some 100, some 30, none, none, none⟩).1 100 30 rfl rfl
    (by norm_num)

/-! ## Risk fusion (`app.py`; severity tiers modelled from the spec)

The combined score is computed in `app.py` (lines 339 and 808) as
`max(disaster_score, crowd_score * 0.9)`.  The severity tier itself comes
from `fusion_engine.fuse`, a module of this repository that is imported by
`app.py` but whose source is not available here; the tier thresholds are
therefore modelled from the spec. -/

/-- `max(disaster_score, crowd_score * 0.9)` (`app.py` lines 339, 808). -/
def combinedScore (disaster_score crowd_score : ℚ) : ℚ :=
  max disaster_score (crowd_score * 0.9)

/-- The totally ordered severity tiers. -/
inductive SeverityTier where
  | low
  | medium
  | high
  | critical
  deriving DecidableEq

/-- Position of a tier in the `Low < Medium < High < Critical` order. -/
def tierIdx : SeverityTier → ℕ
  | .low => 0
  | .medium => 1
  | .high => 2
  | .critical => 3

/-- Tier order: `a` is at most `b` in `Low < Medium < High < Critical`. -/
def tierLe (a b : SeverityTier) : Prop := tierIdx a ≤ tierIdx b

/-- Modelled from the spec: the severity-tier thresholds of
`FusionEngine.fuse` (`fusion_engine` is imported by `app.py` but its
source is not in the repository snapshot): `[0, 0.25) → Low`,
`[0.25, 0.5) → Medium`, `[0.5, 0.75) → High`, `[0.75, 1] → Critical`. -/
def severityOfScore (s : ℚ) : SeverityTier :=
  if s < 0.25 then .low
  else if s < 0.5 then .medium
  else if s < 0.75 then .high
  else .critical

/-- Severity tiers are monotone in the score. -/
theorem severityOfScore_mono (s s' : ℚ) (h : s ≤ s') :
    tierLe (severityOfScore s) (severityOfScore s') := by
  unfold severityOfScore tierLe
  split_ifs <;> simp_all [tierIdx] <;> linarith

/-- C3: For all disaster and crowd scores in `[0, 1]`, the combined risk
score equals `max(disaster_score, crowd_score * 0.9)`, and fusion is
monotone: increasing either input score (holding the other fixed within
the valid range) never decreases the combined score or lowers the
resulting severity tier. -/
theorem C3_fusion_monotone (d c d' c' : ℚ)
    (hd0 : 0 ≤ d) (hd1 : d ≤ 1) (hc0 : 0 ≤ c) (hc1 : c ≤ 1)
    (hd0' : 0 ≤ d') (hd1' : d' ≤ 1) (hc0' : 0 ≤ c') (hc1' : c' ≤ 1)
    (hdle : d ≤ d') (hcle : c ≤ c') :
    combinedScore d c = max d (c * 0.9) ∧
    combinedScore d c ≤ combinedScore d' c' ∧
    tierLe (severityOfScore (combinedScore d c)) (severityOfScore (combinedScore d' c')) := by
  have hmono : combinedScore d c ≤ combinedScore d' c' := by
    unfold combinedScore
    exact max_le_max hdle (by nlinarith)
  exact ⟨rfl, hmono, severityOfScore_mono _ _ hmono⟩

/-- Witness for C3: raising the crowd score from `0.5` to `1` (disaster
fixed at `0.2`) keeps the combination formula, does not decrease the
combined score, and does not lower the tier. -/
theorem C3_witness :
    combinedScore 0.2 0.5 = max 0.2 ((0.5 : ℚ) * 0.9) ∧
    combinedScore 0.2 0.5 ≤ combinedScore 0.2 1 ∧
    tierLe (severityOfScore (combinedScore 0.2 0.5))
      (severityOfScore (combinedScore 0.2 1)) :=
  C3_fusion_monotone 0.2 0.5 0.2 1 (by norm_num) (by norm_num) (by norm_num) (by norm_num)
    (by norm_num) (by norm_num) (by norm_num) (by norm_num) (by norm_num) (by norm_num)

/-! ## Great-circle distance, facility selection (`app.py`) and dispatch
(`src/authority.py`)

These use `math.sin`/`math.cos`/`math.atan2`/`math.sqrt`, modelled over
`ℝ`; coordinates remain exact rationals, coerced where the source computes.
-/

/-- Python `math.radians(x) = x * pi / 180`. -/
noncomputable def radians (x : ℝ) : ℝ := x * (Real.pi / 180)

/-- Python `math.atan2(y, x)`: the angle of the point `(x, y)`. -/
noncomputable def atan2 (y x : ℝ) : ℝ :=
  if 0 < x then Real.arctan (y / x)
  else if x < 0 then
    (if 0 ≤ y then Real.arctan (y / x) + Real.pi else Real.arctan (y / x) - Real.pi)
  else if 0 < y then Real.pi / 2
  else if y < 0 then -(Real.pi / 2)
  else 0

/-- `haversine_km(p1, p2)` from `app.py` (lines 418-426): great-circle
distance with Earth radius `R = 6371.0` km. -/
noncomputable def haversine_km (p1 p2 : Point) : ℝ :=
  let R : ℝ := 6371.0
  let dlat := radians ((p2.1 : ℝ) - (p1.1 : ℝ))
  let dlon := radians ((p2.2 : ℝ) - (p1.2 : ℝ))
  let a := Real.sin (dlat / 2) ^ 2 +
    Real.cos (radians (p1.1 : ℝ)) * Real.cos (radians (p2.1 : ℝ)) * Real.sin (dlon / 2) ^ 2
  let c := 2 * atan2 (Real.sqrt a) (Real.sqrt (1 - a))
  R * c

/-- `atan2(0, 1) = 0`. -/
theorem atan2_zero_one : atan2 0 1 = 0 := by
  simp [atan2]

/-- The haversine distance from a point to itself is exactly `0`. -/
theorem haversine_km_self (p : Point) : haversine_km p p = 0 := by
  simp only [haversine_km, radians]
  rw [sub_self, sub_self]
  norm_num [Real.sqrt_one, atan2_zero_one]

/-- A row of `shelters_list` in `app.py` (line 428):
`(float(row.lat), float(row.lon), row.name)`. -/
structure Shelter where
  lat : ℚ
  lon : ℚ
  name : String

/-- The nearest-shelter selection of `app.py` (lines 428-441): if the list
is non-empty, `min(shelters_list, key=lambda s: haversine_km(origin, (s[0], s[1])))`
with the distance recomputed for the chosen target; otherwise the
configured fallback shelter `(9.93, 76.27)` named `"Fallback Shelter"` at
`1.5` km.  Returns `(target_coord, target_name, dist_km)`. -/
noncomputable def nearestShelterPipeline (origin : Point) (shelters_list : List Shelter) :
    Point × String × ℝ :=
  match minBy (fun s => haversine_km origin (s.lat, s.lon)) shelters_list with
  | some target => ((target.lat, target.lon), target.name,
      haversine_km origin (target.lat, target.lon))
  | none => ((9.93, 76.27), "Fallback Shelter", 1.5)

/-- C9: the chosen facility minimizes the haversine (R = 6371.0 km)
distance from the origin, ties broken by first occurrence in the input
ordering; a single facility at distance 0 comes back with
`dist_km = 0`; and an empty facility list yields the configured default
facility instead of an error. -/
theorem C9_nearest_facility (origin : Point) (shelters_list : List Shelter) :
    (shelters_list = [] → nearestShelterPipeline origin shelters_list =
      ((9.93, 76.27), "Fallback Shelter", 1.5)) ∧
    (∀ m, minBy (fun s => haversine_km origin (s.lat, s.lon)) shelters_list = some m →
      nearestShelterPipeline origin shelters_list =
        ((m.lat, m.lon), m.name, haversine_km origin (m.lat, m.lon)) ∧
      ∃ l₁ l₂, shelters_list = l₁ ++ m :: l₂ ∧
        (∀ x ∈ l₁, haversine_km origin (m.lat, m.lon) < haversine_km origin (x.lat, x.lon)) ∧
        (∀ x ∈ l₂, haversine_km origin (m.lat, m.lon) ≤ haversine_km origin (x.lat, x.lon))) ∧
    (∀ s0, shelters_list = [s0] → ((s0.lat, s0.lon) : Point) = origin →
      nearestShelterPipeline origin shelters_list = (origin, s0.name, 0)) := by
  refine ⟨?_, ?_, ?_⟩
  · rintro rfl
    simp [nearestShelterPipeline, minBy]
  · intro m hm
    refine ⟨by simp [nearestShelterPipeline, hm], ?_⟩
    exact minBy_first_min _ shelters_list m hm
  · rintro s0 rfl horigin
    have hmin : minBy (fun s => haversine_km origin (s.lat, s.lon)) [s0] = some s0 := rfl
    simp only [nearestShelterPipeline, hmin, horigin]
    rw [haversine_km_self]

/-- Witness for C9: a single shelter located exactly at the origin is
selected with `dist_km = 0`. -/
theorem C9_witness :
    nearestShelterPipeline ((9 : ℚ), (76 : ℚ)) [⟨9, 76, "Town Hall"⟩] =
      (((9 : ℚ), (76 : ℚ)), "Town Hall", (0 : ℝ)) :=
  (C9_nearest_facility (9, 76) [⟨9, 76, "Town Hall"⟩]).2.2 ⟨9, 76, "Town Hall"⟩ rfl rfl

/-- `PLAYBOOKS` from `src/authority.py` (lines 7-11). -/
def PLAYBOOKS : List (String × List String) :=
  [("Local Authority", ["Issue public advisory", "Activate shelters", "Coordinate transport"]),
   ("First Responder", ["Dispatch ground team", "Prepare medical aid", "Coordinate with command"]),
   ("Community Leader", ["Open local shelter", "Broadcast instructions", "Assist elderly"])]

/-- The inline haversine of `dispatch` (`authority.py` lines 20-28), with
`R = 6371000` metres. -/
noncomputable def dispatchDistM (origin target : Point) : ℝ :=
  let R : ℝ := 6371000
  let phi1 := radians (origin.1 : ℝ)
  let phi2 := radians (target.1 : ℝ)
  let dphi := radians ((target.1 : ℝ) - (origin.1 : ℝ))
  let dlambda := radians ((target.2 : ℝ) - (origin.2 : ℝ))
  let a := Real.sin (dphi / 2) ^ 2 + Real.cos phi1 * Real.cos phi2 * Real.sin (dlambda / 2) ^ 2
  let c := 2 * atan2 (Real.sqrt a) (Real.sqrt (1 - a))
  R * c

/-- The dispatch distance from a point to itself is exactly `0`. -/
theorem dispatchDistM_self (p : Point) : dispatchDistM p p = 0 := by
  simp only [dispatchDistM, radians]
  rw [sub_self, sub_self]
  norm_num [Real.sqrt_one, atan2_zero_one]

/-- Python `int(x)` on a float: truncation toward zero. -/
noncomputable def pythonInt (x : ℝ) : ℤ := if 0 ≤ x then ⌊x⌋ else -⌊-x⌋

/-- Two-digit zero padding, as in Python's `timedelta` rendering. -/
def pad2 (k : ℕ) : String := if k < 10 then "0" ++ toString k else toString k

/-- Python `str(timedelta(seconds=n))` for the nonnegative durations
`dispatch` produces: `"[D day(s), ]H:MM:SS"`. -/
def timedeltaStr (n : ℤ) : String :=
  let t := n.toNat
  let days := t / 86400
  let h := (t % 86400) / 3600
  let m := (t % 3600) / 60
  let sec := t % 60
  let hms := toString h ++ ":" ++ pad2 m ++ ":" ++ pad2 sec
  if days = 0 then hms
  else toString days ++ (if days = 1 then " day, " else " days, ") ++ hms

/-- Python `str(eta)` where `eta` is `None` or a `timedelta`. -/
def strOfEta : Option ℤ → String
  | none => "None"
  | some n => timedeltaStr n

/-- The outputs of `authority.dispatch`: the role's action checklist and
the marker's `eta` (the `timedelta` value in whole seconds, `none` for
Python `None`), its rendering `str(eta)`, and `int(dist_m)`. -/
structure DispatchOutput where
  actions : List String
  eta : Option ℤ
  etaStr : String
  distance_m : ℤ

/-- `dispatch(role, origin, target, G)` from `src/authority.py`
(lines 13-34; the graph argument is never used).  Actions come from
`PLAYBOOKS.get(role, PLAYBOOKS["Local Authority"])`; the distance is the
inline haversine; `eta_seconds = dist_m / speed if speed > 0 else None`
with `speed = 4.166`; `eta = timedelta(seconds=int(eta_seconds)) if
eta_seconds else None`, where the float `0.0` is falsy; the marker stores
`str(eta)` and `int(dist_m)`. -/
noncomputable def dispatch (role : String) (origin target : Point) : DispatchOutput :=
  let actions := (PLAYBOOKS.lookup role).getD ((PLAYBOOKS.lookup "Local Authority").getD [])
  let dist_m := dispatchDistM origin target
  let speed : ℝ := 4.166
  let eta_seconds : Option ℝ := if 0 < speed then some (dist_m / speed) else none
  let eta : Option ℤ :=
    match eta_seconds with
    | some s => if s ≠ 0 then some (pythonInt s) else none
    | none => none
  { actions := actions, eta := eta, etaStr := strOfEta eta, distance_m := pythonInt dist_m }

/-- C10: for every role, coincident origin and target (distance 0) give an
`eta` of `None`, rendered as the string `"None"`, rather than a zero
duration; for every strictly positive distance, `eta` is the distance in
metres divided by the fixed responder speed `4.166` m/s, truncated to
whole seconds (truncation = floor, the quotient being nonnegative). -/
theorem C10_dispatch_eta (role : String) (origin target : Point) :
    (origin = target →
      (dispatch role origin target).eta = none ∧
      (dispatch role origin target).etaStr = "None") ∧
    (0 < dispatchDistM origin target →
      (dispatch role origin target).eta =
        some (pythonInt (dispatchDistM origin target / 4.166)) ∧
      pythonInt (dispatchDistM origin target / 4.166) =
        ⌊dispatchDistM origin target / 4.166⌋) := by
  constructor
  · rintro rfl
    have h0 : dispatchDistM origin origin = 0 := dispatchDistM_self origin
    constructor
    · norm_num [dispatch, h0, strOfEta]
    · norm_num [dispatch, h0, strOfEta]
  · intro hpos
    have hspeed : (0 : ℝ) < 4.166 := by norm_num
    have hq : 0 < dispatchDistM origin target / 4.166 := div_pos hpos hspeed
    constructor
    · simp [dispatch, strOfEta, ne_of_gt hq, hspeed]
    · simp [pythonInt, le_of_lt hq]

/-- Witness for C10: a responder dispatched to their own position gets
`eta = None`, rendered `"None"`. -/
theorem C10_witness :
    (dispatch "First Responder" ((9 : ℚ), (76 : ℚ)) ((9 : ℚ), (76 : ℚ))).eta = none ∧
    (dispatch "First Responder" ((9 : ℚ), (76 : ℚ)) ((9 : ℚ), (76 : ℚ))).etaStr = "None" :=
  (C10_dispatch_eta "First Responder" (9, 76) (9, 76)).1 rfl

end CrowdShield
